import Mathlib

/-!
Verification of the PNGHeaderScanner repository (src/src/main.rs).

Shallow embedding:
* A file's readable content is a `List Nat` of byte values; a file that
  cannot be opened is `none : Option (List Nat)`.  An I/O error part-way
  through the stream behaves, for `read_exact`-style reads, exactly like
  the stream ending at that point, so stream truncation models it.
* The external collaborators used by `fix_image` (the `image` codec,
  `oxipng`, `fs::metadata`) are modelled by an environment record holding
  the result each call would produce (`none` = the call fails, making the
  corresponding `.expect(..)` panic).
* `println!`/`print!` output is modelled as a list of abstract output
  lines (`OutLine`); floating-point formatting details of the size-change
  line are abstracted into the `sizeChange` constructor's payload.
* Process termination (a Rust panic from `.expect`, or
  `std::process::exit(-1)`) is the `ProcExit` type; both give the process
  a non-zero exit status.
-/

/-- Mirrors `enum PixelFormat` in main.rs. -/
inductive PixelFormat where
  | Greyscale
  | TrueColor
  | IndexedColor
  | GreyscaleWithAlpha
  | TrueColorWithAlpha
  deriving DecidableEq, Repr

/-- Mirrors `enum ParseResult` in main.rs. -/
inductive ParseResult where
  | OpenFail
  | ReadFail
  | InvalidPngHeader
  | InvalidIhdr
  | InvalidPixelFormat
  | Valid (pf : PixelFormat)
  deriving DecidableEq, Repr

/-- Mirrors `const EXPECTED_PNG_HEADER: [u8; 8] = [137, 80, 78, 71, 13, 10, 26, 10];`. -/
def EXPECTED_PNG_HEADER : List Nat := [137, 80, 78, 71, 13, 10, 26, 10]

/-- Mirrors `"IHDR".as_bytes()`, the bytes [73, 72, 68, 82]. -/
def IHDR_EXPECTED : List Nat := [73, 72, 68, 82]

/-- Models `read_exact` / `read_u32::<BigEndian>` / `read_u8` on a sequential
stream: they succeed only when `n` bytes remain, consuming them. -/
def readBytes (n : Nat) (s : List Nat) : Option (List Nat × List Nat) :=
  if n ≤ s.length then some (s.take n, s.drop n) else none

/-- Mirrors `fn parse_one` in main.rs, lines 45-111.  The file argument is
`none` when `File::open` fails; otherwise the byte content of the stream.
Each sequential read is `readBytes`; the parsed `u32` values (IHDR size,
width, height) and the bit-depth byte are read and discarded exactly as in
the source. -/
def parse_one (file : Option (List Nat)) : ParseResult :=
  match file with
  | none => ParseResult.OpenFail
  | some s0 =>
    match readBytes 8 s0 with
    | none => ParseResult.ReadFail
    | some (png_header, s1) =>
      if png_header ≠ EXPECTED_PNG_HEADER then ParseResult.InvalidPngHeader
      else
        match readBytes 4 s1 with
        | none => ParseResult.ReadFail
        | some (_ihdr_size, s2) =>
          match readBytes 4 s2 with
          | none => ParseResult.ReadFail
          | some (ihdr, s3) =>
            if ihdr ≠ IHDR_EXPECTED then ParseResult.InvalidIhdr
            else
              match readBytes 4 s3 with
              | none => ParseResult.ReadFail
              | some (_width, s4) =>
                match readBytes 4 s4 with
                | none => ParseResult.ReadFail
                | some (_height, s5) =>
                  match readBytes 1 s5 with
                  | none => ParseResult.ReadFail
                  | some (_bit_depth, s6) =>
                    match readBytes 1 s6 with
                    | none => ParseResult.ReadFail
                    | some (pf, _s7) =>
                      match pf.headD 0 with
                      | 0 => ParseResult.Valid PixelFormat.Greyscale
                      | 2 => ParseResult.Valid PixelFormat.TrueColor
                      | 3 => ParseResult.Valid PixelFormat.IndexedColor
                      | 4 => ParseResult.Valid PixelFormat.GreyscaleWithAlpha
                      | 6 => ParseResult.Valid PixelFormat.TrueColorWithAlpha
                      | _ => ParseResult.InvalidPixelFormat

/-- How a run of the process can terminate early: a Rust `panic!` raised
by `.expect(msg)` (which aborts the process with exit code 101 and prints
`msg` as a diagnostic), or an explicit `std::process::exit(code)`. -/
inductive ProcExit where
  | panic (msg : String)
  | exitCode (code : Int)
  deriving DecidableEq, Repr

/-- Both termination paths leave a non-zero process exit status: a Rust
panic exits with code 101, and the only explicit exit in the source is
`std::process::exit(-1)`. -/
def ProcExit.isNonZero : ProcExit → Bool
  | ProcExit.panic _ => true
  | ProcExit.exitCode c => c != 0

/-- Abstract console output lines (`print!`/`println!` in main.rs).
Floating-point formatting of the size-change line is abstracted into the
raw sizes it is computed from. -/
inductive OutLine where
  | converting                          -- "Converting to RGB/RGBA..."
  | optimizing                          -- " Optimizing..."
  | optimized                           -- "Optimized."
  | mismatchBanner                      -- the three ERROR lines of the mismatch branch
  | sizeChange (before after : Nat)     -- "Size Change: [..KB / ..%]"
  | isIndexed (relPath : String)        -- "{} is indexed!"
  | errorLine (r : ParseResult) (relPath : String)  -- "Error {:?}: {}"
  | fixedSummary (n : Nat)              -- "Fixed {} files."
  deriving DecidableEq, Repr

/-- The results the external collaborators of `fix_image` would produce
for one file, each `none` when the call fails (so the `.expect` panics):
`fs::metadata(..).len()` before, `image::open(path)` giving the raw pixel
buffer of the decoded image, `image.save(path)`, `oxipng::optimize`,
`image::open(path)` after optimization giving its raw pixel buffer, and
`fs::metadata(..).len()` after. -/
structure FixEnv where
  sizeBefore : Option Nat
  decode : Option (List Nat)
  save : Option Unit
  optimize : Option Unit
  redecode : Option (List Nat)
  sizeAfter : Option Nat
  deriving DecidableEq, Repr

/-- Outcome of `fix_image`: either the process is terminated
(`fatal`, carrying the lines printed before termination) or the function
returns normally (`ok`, carrying the lines printed). -/
inductive FixResult where
  | fatal (e : ProcExit) (out : List OutLine)
  | ok (out : List OutLine)
  deriving DecidableEq, Repr

/-- Mirrors `fn fix_image` in main.rs, lines 114-160, over the collaborator
environment.  Each `.expect(msg)` is a `ProcExit.panic msg` when the
collaborator result is `none`; the pixel-buffer comparison at line 146 and
the `std::process::exit(-1)` at line 150 are the mismatch branch. -/
def fix_image (env : FixEnv) : FixResult :=
  match env.sizeBefore with
  | none => FixResult.fatal (ProcExit.panic ("Can\u0027t get image size")) []
  | some image_size_before =>
    match env.decode with
    | none => FixResult.fatal (ProcExit.panic ("Failed to open image!")) [OutLine.converting]
    | some image_before_optimizing =>
      match env.save with
      | none => FixResult.fatal (ProcExit.panic ("Failed to save image!")) [OutLine.converting]
      | some _ =>
        match env.optimize with
        | none =>
          FixResult.fatal (ProcExit.panic ("Optimize failed!"))
            [OutLine.converting, OutLine.optimizing]
        | some _ =>
          match env.redecode with
          | none =>
            FixResult.fatal (ProcExit.panic ("Failed to open optimized image!"))
              [OutLine.converting, OutLine.optimizing, OutLine.optimized]
          | some image_pixel_data_after_optimizing =>
            if image_before_optimizing ≠ image_pixel_data_after_optimizing then
              FixResult.fatal (ProcExit.exitCode (-1))
                [OutLine.converting, OutLine.optimizing, OutLine.optimized,
                 OutLine.mismatchBanner]
            else
              match env.sizeAfter with
              | none =>
                FixResult.fatal (ProcExit.panic ("Can\u0027t get image size"))
                  [OutLine.converting, OutLine.optimizing, OutLine.optimized]
              | some image_size_after =>
                FixResult.ok
                  [OutLine.converting, OutLine.optimizing, OutLine.optimized,
                   OutLine.sizeChange image_size_before image_size_after]

/-- Outcome of `handle_one_file` for one entry: either the bool that the
Rust function returns together with the lines it printed, or the process
was terminated inside `fix_image`. -/
inductive StepResult where
  | done (fixed : Bool) (out : List OutLine)
  | aborted (e : ProcExit) (out : List OutLine)
  deriving DecidableEq, Repr

/-- Mirrors `fn handle_one_file` in main.rs, lines 162-180: dispatch on the
classification of the file; only `Valid(IndexedColor)` invokes `fix_image`. -/
def handle_one_file (file : Option (List Nat)) (env : FixEnv) (rel_path : String) :
    StepResult :=
  match parse_one file with
  | ParseResult.Valid pixel_format =>
    match pixel_format with
    | PixelFormat.IndexedColor =>
      match fix_image env with
      | FixResult.fatal e fout => StepResult.aborted e (OutLine.isIndexed rel_path :: fout)
      | FixResult.ok fout => StepResult.done true (OutLine.isIndexed rel_path :: fout)
    | _ => StepResult.done false []
  | error_parse_result => StepResult.done false [OutLine.errorLine error_parse_result rel_path]

/-- One filesystem entry as yielded by the `walkdir` collaborator: whether
`path.is_file()`, the value of `path.extension()`, the path relative to the
scan root, the openable content of the file, and the collaborator results
`fix_image` would see for it. -/
structure DirEntry where
  isFile : Bool
  extension : Option String
  relPath : String
  file : Option (List Nat)
  fixEnv : FixEnv
  deriving DecidableEq, Repr

/-- An item of the `WalkDir::new(..)` iteration: either an entry or a
traversal error (`walkdir` yields `Result<DirEntry, Error>`; the source
unwraps it with `.expect("File I/O Error?")`). -/
inductive WalkItem where
  | ok (e : DirEntry)
  | err
  deriving DecidableEq, Repr

/-- The body of the `for entry in WalkDir::new(scan_path)` loop in `main`
(lines 200-215) for one ok entry: `none` when the entry is skipped without
classification (not a regular file, or extension missing or ≠ "png");
otherwise the result of `handle_one_file`.  The `OsStr` comparison
`ext == target_extension` is exact byte equality, hence case-sensitive. -/
def entryStep (ent : DirEntry) : Option StepResult :=
  if !ent.isFile then none
  else
    match ent.extension with
    | some ext =>
      if ext = "png" then some (handle_one_file ent.file ent.fixEnv ent.relPath)
      else none
    | none => none

/-- Result of the whole walk loop of `main`: normal completion with the
final `num_fixed` and all output (ending in the summary line), or process
termination part-way. -/
inductive RunResult where
  | finished (numFixed : Nat) (out : List OutLine)
  | aborted (e : ProcExit) (numFixed : Nat) (out : List OutLine)
  deriving DecidableEq, Repr

/-- Mirrors the walk loop and summary of `fn main` (lines 194-218) over a
list of walk items, threading `num_fixed` and the output printed so far.
An error item makes `entry.expect("File I/O Error?")` panic. -/
def runWalk : List WalkItem → Nat → List OutLine → RunResult
  | [], num_fixed, out =>
    RunResult.finished num_fixed (out ++ [OutLine.fixedSummary num_fixed])
  | WalkItem.err :: _, num_fixed, out =>
    RunResult.aborted (ProcExit.panic ("File I/O Error?")) num_fixed out
  | WalkItem.ok ent :: rest, num_fixed, out =>
    match entryStep ent with
    | none => runWalk rest num_fixed out
    | some (StepResult.done fixed o) =>
      runWalk rest (if fixed then num_fixed + 1 else num_fixed) (out ++ o)
    | some (StepResult.aborted e o) => RunResult.aborted e num_fixed (out ++ o)

/-- The color-type table of `parse_one` (main.rs lines 100-107) as a named
function, for stating the closed form of the parser. -/
def colorTypeByte : Nat → ParseResult
  | 0 => ParseResult.Valid PixelFormat.Greyscale
  | 2 => ParseResult.Valid PixelFormat.TrueColor
  | 3 => ParseResult.Valid PixelFormat.IndexedColor
  | 4 => ParseResult.Valid PixelFormat.GreyscaleWithAlpha
  | 6 => ParseResult.Valid PixelFormat.TrueColorWithAlpha
  | _ => ParseResult.InvalidPixelFormat

/-- The output lines carried by a `FixResult`, whichever way it ended. -/
def FixResult.out : FixResult → List OutLine
  | FixResult.fatal _ o => o
  | FixResult.ok o => o

/-- The output lines carried by a `StepResult`, whichever way it ended. -/
def StepResult.out : StepResult → List OutLine
  | StepResult.done _ o => o
  | StepResult.aborted _ o => o

/-! ### Helper lemmas about the stream reader -/

theorem readBytes_of_le {n : Nat} {s : List Nat} (h : n ≤ s.length) :
    readBytes n s = some (s.take n, s.drop n) := by
  unfold readBytes
  rw [if_pos h]

theorem readBytes_of_lt {n : Nat} {s : List Nat} (h : s.length < n) :
    readBytes n s = none := by
  unfold readBytes
  rw [if_neg (by omega)]

theorem headD_take_one (xs : List Nat) (d : Nat) : (xs.take 1).headD d = xs.headD d := by
  cases xs <;> rfl

theorem colorTypeByte_match (b : Nat) :
    (match b with
      | 0 => ParseResult.Valid PixelFormat.Greyscale
      | 2 => ParseResult.Valid PixelFormat.TrueColor
      | 3 => ParseResult.Valid PixelFormat.IndexedColor
      | 4 => ParseResult.Valid PixelFormat.GreyscaleWithAlpha
      | 6 => ParseResult.Valid PixelFormat.TrueColorWithAlpha
      | _ => ParseResult.InvalidPixelFormat) = colorTypeByte b := by
  rcases b with _|_|_|_|_|_|_|b <;> rfl

/-- Closed form of the classifier on an openable file: the outcome is
determined by the length of the stream, its first 8 bytes, bytes 12-15 and
byte 25 — exactly the fields the sequential reads of `parse_one` consume. -/
theorem parse_one_some_eq (s : List Nat) :
    parse_one (some s) =
      if s.length < 8 then ParseResult.ReadFail
      else if s.take 8 ≠ EXPECTED_PNG_HEADER then ParseResult.InvalidPngHeader
      else if s.length < 16 then ParseResult.ReadFail
      else if (s.drop 12).take 4 ≠ IHDR_EXPECTED then ParseResult.InvalidIhdr
      else if s.length < 26 then ParseResult.ReadFail
      else colorTypeByte ((s.drop 25).headD 0) := by
  by_cases h8 : s.length < 8
  · rw [if_pos h8]
    simp only [parse_one, readBytes_of_lt h8]
  · rw [if_neg h8]
    simp only [parse_one, readBytes_of_le (by omega : 8 ≤ s.length)]
    by_cases hsig : s.take 8 = EXPECTED_PNG_HEADER
    · have hc : ¬ (s.take 8 ≠ EXPECTED_PNG_HEADER) := by simpa using hsig
      simp only [if_neg hc]
      by_cases h12 : s.length < 12
      · rw [if_pos (by omega : s.length < 16)]
        rw [readBytes_of_lt (by rw [List.length_drop]; omega : (s.drop 8).length < 4)]
      · rw [readBytes_of_le (by rw [List.length_drop]; omega : 4 ≤ (s.drop 8).length)]
        simp only [List.drop_drop]
        rw [show (8 : Nat) + 4 = 12 from rfl]
        by_cases h16 : s.length < 16
        · rw [if_pos h16]
          rw [readBytes_of_lt (by rw [List.length_drop]; omega : (s.drop 12).length < 4)]
        · rw [if_neg h16]
          rw [readBytes_of_le (by rw [List.length_drop]; omega : 4 ≤ (s.drop 12).length)]
          simp only [List.drop_drop]
          rw [show (12 : Nat) + 4 = 16 from rfl]
          by_cases htag : (s.drop 12).take 4 = IHDR_EXPECTED
          · have hc2 : ¬ ((s.drop 12).take 4 ≠ IHDR_EXPECTED) := by simpa using htag
            simp only [if_neg hc2]
            by_cases h20 : s.length < 20
            · rw [if_pos (by omega : s.length < 26)]
              rw [readBytes_of_lt (by rw [List.length_drop]; omega : (s.drop 16).length < 4)]
            · rw [readBytes_of_le (by rw [List.length_drop]; omega : 4 ≤ (s.drop 16).length)]
              simp only [List.drop_drop]
              rw [show (16 : Nat) + 4 = 20 from rfl]
              by_cases h24 : s.length < 24
              · rw [if_pos (by omega : s.length < 26)]
                rw [readBytes_of_lt
                  (by rw [List.length_drop]; omega : (s.drop 20).length < 4)]
              · rw [readBytes_of_le
                  (by rw [List.length_drop]; omega : 4 ≤ (s.drop 20).length)]
                simp only [List.drop_drop]
                rw [show (20 : Nat) + 4 = 24 from rfl]
                by_cases h25 : s.length < 25
                · rw [if_pos (by omega : s.length < 26)]
                  rw [readBytes_of_lt
                    (by rw [List.length_drop]; omega : (s.drop 24).length < 1)]
                · rw [readBytes_of_le
                    (by rw [List.length_drop]; omega : 1 ≤ (s.drop 24).length)]
                  simp only [List.drop_drop]
                  rw [show (24 : Nat) + 1 = 25 from rfl]
                  by_cases h26 : s.length < 26
                  · rw [if_pos h26]
                    rw [readBytes_of_lt
                      (by rw [List.length_drop]; omega : (s.drop 25).length < 1)]
                  · rw [if_neg h26]
                    rw [readBytes_of_le
                      (by rw [List.length_drop]; omega : 1 ≤ (s.drop 25).length)]
                    simp only [headD_take_one]
                    exact colorTypeByte_match _
          · rw [if_pos htag, if_pos htag]
    · have hsig2 : s.take 8 ≠ EXPECTED_PNG_HEADER := hsig
      simp only [if_pos hsig2]

/-- The function `fix_image` never prints the final `Fixed .. files.` summary line. -/
theorem fix_image_no_summary (env : FixEnv) (k : Nat) :
    OutLine.fixedSummary k ∉ (fix_image env).out := by
  rcases env with ⟨_ | sb, _ | d, _ | sv, _ | op, _ | rd, _ | sa⟩ <;>
    simp only [fix_image] <;> (try split) <;> simp [FixResult.out]

/-- The function `handle_one_file` never prints the final summary line either. -/
theorem handle_one_file_no_summary (file : Option (List Nat)) (env : FixEnv)
    (rel : String) (k : Nat) :
    OutLine.fixedSummary k ∉ (handle_one_file file env rel).out := by
  have hfix := fix_image_no_summary env k
  unfold handle_one_file
  rcases parse_one file with _ | _ | _ | _ | _ | pf
  · simp [StepResult.out]
  · simp [StepResult.out]
  · simp [StepResult.out]
  · simp [StepResult.out]
  · simp [StepResult.out]
  · rcases pf
    case IndexedColor =>
      rcases hf : fix_image env with ⟨e, fout⟩ | fout <;> rw [hf] at hfix <;>
        simp_all [StepResult.out, FixResult.out]
    all_goals simp [StepResult.out]

/-- The color-type table written as a decision chain. -/
theorem colorTypeByte_ite (b : Nat) :
    colorTypeByte b =
      if b = 0 then ParseResult.Valid PixelFormat.Greyscale
      else if b = 2 then ParseResult.Valid PixelFormat.TrueColor
      else if b = 3 then ParseResult.Valid PixelFormat.IndexedColor
      else if b = 4 then ParseResult.Valid PixelFormat.GreyscaleWithAlpha
      else if b = 6 then ParseResult.Valid PixelFormat.TrueColorWithAlpha
      else ParseResult.InvalidPixelFormat := by
  rcases b with _|_|_|_|_|_|_|b <;> rfl

/-- Whatever `entryStep` dispatches comes from `handle_one_file`, so it too
never prints the summary line. -/
theorem entryStep_no_summary (ent : DirEntry) (r : StepResult)
    (h : entryStep ent = some r) (k : Nat) : OutLine.fixedSummary k ∉ r.out := by
  unfold entryStep at h
  rcases hb : ent.isFile with _ | _ <;> rw [hb] at h
  · simp at h
  · simp only [Bool.not_true, Bool.false_eq_true, if_false] at h
    rcases hx : ent.extension with _ | ext
    · rw [hx] at h
      cases h
    · rw [hx] at h
      dsimp only at h
      by_cases hext : ext = "png"
      · rw [if_pos hext] at h
        obtain rfl : handle_one_file ent.file ent.fixEnv ent.relPath = r :=
          Option.some.inj h
        exact handle_one_file_no_summary _ _ _ _
      · rw [if_neg hext] at h
        cases h

/-- If the walk aborts, every summary line in its accumulated output was
already there before the walk step that aborted: no step of the walk prints
`Fixed .. files.`; only normal completion appends it. -/
theorem runWalk_aborted_out (items : List WalkItem) :
    ∀ n out e m o, runWalk items n out = RunResult.aborted e m o →
      ∀ k, OutLine.fixedSummary k ∈ o → OutLine.fixedSummary k ∈ out := by
  induction items with
  | nil =>
    intro n out e m o h
    simp [runWalk] at h
  | cons item rest ih =>
    intro n out e m o h k hk
    rcases item with ent | _
    · rw [runWalk] at h
      rcases he : entryStep ent with _ | r
      · rw [he] at h
        exact ih n out e m o h k hk
      · have hno := entryStep_no_summary ent r he k
        rcases r with ⟨f, o'⟩ | ⟨e', o'⟩
        · rw [he] at h
          have hmem := ih _ _ _ _ _ h k hk
          rcases List.mem_append.1 hmem with h1 | h1
          · exact h1
          · exact absurd h1 (by simpa [StepResult.out] using hno)
        · rw [he] at h
          obtain ⟨rfl, rfl, rfl⟩ : e' = e ∧ n = m ∧ out ++ o' = o := by
            cases h; exact ⟨rfl, rfl, rfl⟩
          rcases List.mem_append.1 hk with h1 | h1
          · exact h1
          · exact absurd h1 (by simpa [StepResult.out] using hno)
    · rw [runWalk] at h
      obtain ⟨rfl, rfl, rfl⟩ :
          ProcExit.panic ("File I/O Error?") = e ∧ n = m ∧ out = o := by
        cases h; exact ⟨rfl, rfl, rfl⟩
      exact hk

/-- Claim C2: when signature, IHDR length, IHDR tag, width, height and
bit-depth are all present and well-formed, the classification of the
color-type byte follows the table 0 ↦ Greyscale, 2 ↦ TrueColor,
3 ↦ IndexedColor, 4 ↦ GreyscaleWithAlpha, 6 ↦ TrueColorWithAlpha, and any
other byte value gives `InvalidPixelFormat` (the source's name for the
spec's `UnrecognizedPixelFormat`). -/
theorem parse_one_color_type_table (len w h : List Nat) (bd b : Nat) (rest : List Nat)
    (hlen : len.length = 4) (hw : w.length = 4) (hh : h.length = 4) :
    parse_one (some (EXPECTED_PNG_HEADER ++ len ++ IHDR_EXPECTED ++ w ++ h ++
        bd :: b :: rest)) =
      if b = 0 then ParseResult.Valid PixelFormat.Greyscale
      else if b = 2 then ParseResult.Valid PixelFormat.TrueColor
      else if b = 3 then ParseResult.Valid PixelFormat.IndexedColor
      else if b = 4 then ParseResult.Valid PixelFormat.GreyscaleWithAlpha
      else if b = 6 then ParseResult.Valid PixelFormat.TrueColorWithAlpha
      else ParseResult.InvalidPixelFormat := by
  set s : List Nat :=
    EXPECTED_PNG_HEADER ++ len ++ IHDR_EXPECTED ++ w ++ h ++ bd :: b :: rest with hs
  have hL : s.length = 26 + rest.length := by
    rw [hs]
    simp only [List.length_append, List.length_cons, EXPECTED_PNG_HEADER, IHDR_EXPECTED,
      List.length_nil, hlen, hw, hh]
    omega
  have hs2 : s = EXPECTED_PNG_HEADER ++
      (len ++ (IHDR_EXPECTED ++ (w ++ (h ++ bd :: b :: rest)))) := by
    rw [hs]
    simp [List.append_assoc]
  have hD8 : s.drop 8 = len ++ (IHDR_EXPECTED ++ (w ++ (h ++ bd :: b :: rest))) := by
    rw [hs2]
    exact List.drop_left' rfl
  have hD12 : s.drop 12 = IHDR_EXPECTED ++ (w ++ (h ++ bd :: b :: rest)) := by
    rw [show (12 : Nat) = 8 + 4 from rfl, ← List.drop_drop, hD8, List.drop_left' hlen]
  have hD16 : s.drop 16 = w ++ (h ++ bd :: b :: rest) := by
    rw [show (16 : Nat) = 12 + 4 from rfl, ← List.drop_drop, hD12]
    exact List.drop_left' (by rfl)
  have hD20 : s.drop 20 = h ++ bd :: b :: rest := by
    rw [show (20 : Nat) = 16 + 4 from rfl, ← List.drop_drop, hD16, List.drop_left' hw]
  have hD24 : s.drop 24 = bd :: b :: rest := by
    rw [show (24 : Nat) = 20 + 4 from rfl, ← List.drop_drop, hD20, List.drop_left' hh]
  have hD25 : s.drop 25 = b :: rest := by
    rw [show (25 : Nat) = 24 + 1 from rfl, ← List.drop_drop, hD24]
    rfl
  have hT8 : s.take 8 = EXPECTED_PNG_HEADER := by
    rw [hs2]
    exact List.take_left' rfl
  have hTag : (s.drop 12).take 4 = IHDR_EXPECTED := by
    rw [hD12]
    exact List.take_left' rfl
  rw [parse_one_some_eq, if_neg (show ¬ s.length < 8 by omega), hT8,
    if_neg (show ¬ EXPECTED_PNG_HEADER ≠ EXPECTED_PNG_HEADER by simp),
    if_neg (show ¬ s.length < 16 by omega), hTag,
    if_neg (show ¬ IHDR_EXPECTED ≠ IHDR_EXPECTED by simp),
    if_neg (show ¬ s.length < 26 by omega), hD25]
  exact colorTypeByte_ite b

/-- Witness for C2: a concrete indexed-color header classifies as
`Valid IndexedColor` via the table. -/
theorem parse_one_color_type_table_witness :
    parse_one (some (EXPECTED_PNG_HEADER ++ [0, 0, 0, 13] ++ IHDR_EXPECTED ++
        [0, 0, 0, 1] ++ [0, 0, 0, 1] ++ 8 :: 3 :: [])) =
      ParseResult.Valid PixelFormat.IndexedColor :=
  (parse_one_color_type_table [0, 0, 0, 13] [0, 0, 0, 1] [0, 0, 0, 1] 8 3 []
    (by decide) (by decide) (by decide)).trans (by decide)

/-- Claim C3: classification short-circuits on the first structural
mismatch: an 8-byte prefix different from the PNG magic yields
`InvalidPngHeader` whatever follows, and a valid signature followed by a
4-byte length and a 4-byte tag different from "IHDR" yields `InvalidIhdr`
whatever follows. -/
theorem parse_one_short_circuit :
    (∀ (hdr rest : List Nat), hdr.length = 8 → hdr ≠ EXPECTED_PNG_HEADER →
      parse_one (some (hdr ++ rest)) = ParseResult.InvalidPngHeader) ∧
    (∀ (len tag rest : List Nat), len.length = 4 → tag.length = 4 →
      tag ≠ IHDR_EXPECTED →
      parse_one (some (EXPECTED_PNG_HEADER ++ len ++ tag ++ rest)) =
        ParseResult.InvalidIhdr) := by
  constructor
  · intro hdr rest h8 hne
    have hL : (hdr ++ rest).length = 8 + rest.length := by
      rw [List.length_append, h8]
    rw [parse_one_some_eq, if_neg (show ¬ (hdr ++ rest).length < 8 by omega),
      List.take_left' h8, if_pos hne]
  · intro len tag rest hlen htag hne
    have ha : EXPECTED_PNG_HEADER ++ len ++ tag ++ rest =
        EXPECTED_PNG_HEADER ++ (len ++ (tag ++ rest)) := by
      simp [List.append_assoc]
    have hL : (EXPECTED_PNG_HEADER ++ (len ++ (tag ++ rest))).length =
        16 + rest.length := by
      simp only [List.length_append, EXPECTED_PNG_HEADER, List.length_cons,
        List.length_nil, hlen, htag]
      omega
    have hD8 : (EXPECTED_PNG_HEADER ++ (len ++ (tag ++ rest))).drop 8 =
        len ++ (tag ++ rest) := List.drop_left' (by rfl)
    have hD12 : (EXPECTED_PNG_HEADER ++ (len ++ (tag ++ rest))).drop 12 = tag ++ rest := by
      rw [show (12 : Nat) = 8 + 4 from rfl, ← List.drop_drop, hD8, List.drop_left' hlen]
    have hT8 : (EXPECTED_PNG_HEADER ++ (len ++ (tag ++ rest))).take 8 =
        EXPECTED_PNG_HEADER := List.take_left' (by rfl)
    rw [ha, parse_one_some_eq,
      if_neg (show ¬ (EXPECTED_PNG_HEADER ++ (len ++ (tag ++ rest))).length < 8 by omega),
      hT8,
      if_neg (show ¬ EXPECTED_PNG_HEADER ≠ EXPECTED_PNG_HEADER by simp),
      if_neg
        (show ¬ (EXPECTED_PNG_HEADER ++ (len ++ (tag ++ rest))).length < 16 by omega),
      hD12, List.take_left' htag, if_pos hne]

/-- Witness for C3: a concrete bad signature and a concrete bad IHDR tag. -/
theorem parse_one_short_circuit_witness :
    parse_one (some (List.replicate 8 0 ++ [1, 2, 3])) = ParseResult.InvalidPngHeader ∧
    parse_one (some (EXPECTED_PNG_HEADER ++ [0, 0, 0, 13] ++ [74, 72, 68, 82] ++ [])) =
      ParseResult.InvalidIhdr :=
  ⟨parse_one_short_circuit.1 (List.replicate 8 0) [1, 2, 3] (by decide) (by decide),
   parse_one_short_circuit.2 [0, 0, 0, 13] [74, 72, 68, 82] [] (by decide) (by decide)
     (by decide)⟩

/-- Counterexample to C4 as stated: an 8-byte file of zeros ends well
before the color-type byte at offset 25, yet classification returns
`InvalidPngHeader` (the signature check fires first), not `ReadFail`. -/
theorem parse_one_truncation_cex :
    (List.replicate 8 0).length ≤ 25 ∧
    parse_one (some (List.replicate 8 0)) = ParseResult.InvalidPngHeader ∧
    parse_one (some (List.replicate 8 0)) ≠ ParseResult.ReadFail := by decide

/-- Claim C4 (amended): a file shorter than 26 bytes classifies as
`ReadFail` provided the bytes that are present agree with the required
structure (full signature valid when present, full IHDR tag valid when
present) — in particular every truncation of a well-formed header,
including the zero-byte file; and classification is total, always
returning one of the six outcomes. -/
theorem parse_one_truncated_readFail :
    (∀ s : List Nat, s.length ≤ 25 →
      (8 ≤ s.length → s.take 8 = EXPECTED_PNG_HEADER) →
      (16 ≤ s.length → (s.drop 12).take 4 = IHDR_EXPECTED) →
      parse_one (some s) = ParseResult.ReadFail) ∧
    (∀ file : Option (List Nat),
      parse_one file = ParseResult.OpenFail ∨ parse_one file = ParseResult.ReadFail ∨
      parse_one file = ParseResult.InvalidPngHeader ∨
      parse_one file = ParseResult.InvalidIhdr ∨
      parse_one file = ParseResult.InvalidPixelFormat ∨
      ∃ pf, parse_one file = ParseResult.Valid pf) := by
  constructor
  · intro s hle hsig htag
    rw [parse_one_some_eq]
    by_cases h8 : s.length < 8
    · rw [if_pos h8]
    · rw [if_neg h8,
        if_neg (show ¬ s.take 8 ≠ EXPECTED_PNG_HEADER by simpa using hsig (by omega))]
      by_cases h16 : s.length < 16
      · rw [if_pos h16]
      · rw [if_neg h16,
          if_neg (show ¬ (s.drop 12).take 4 ≠ IHDR_EXPECTED by
            simpa using htag (by omega)),
          if_pos (show s.length < 26 by omega)]
  · intro file
    rcases hp : parse_one file with _ | _ | _ | _ | _ | pf
    · exact Or.inl rfl
    · exact Or.inr (Or.inl rfl)
    · exact Or.inr (Or.inr (Or.inl rfl))
    · exact Or.inr (Or.inr (Or.inr (Or.inl rfl)))
    · exact Or.inr (Or.inr (Or.inr (Or.inr (Or.inl rfl))))
    · exact Or.inr (Or.inr (Or.inr (Or.inr (Or.inr ⟨pf, rfl⟩))))

/-- Witness for C4 (amended): the 25-byte prefix of a well-formed indexed
header — everything up to and including the bit-depth byte — reads as
`ReadFail`. -/
theorem parse_one_truncated_readFail_witness :
    parse_one (some (EXPECTED_PNG_HEADER ++ [0, 0, 0, 13] ++ IHDR_EXPECTED ++
      [0, 0, 0, 1] ++ [0, 0, 0, 1] ++ [8])) = ParseResult.ReadFail :=
  parse_one_truncated_readFail.1
    (EXPECTED_PNG_HEADER ++ [0, 0, 0, 13] ++ IHDR_EXPECTED ++
      [0, 0, 0, 1] ++ [0, 0, 0, 1] ++ [8])
    (by decide) (by decide) (by decide)

/-- Claim C5: classification is a pure function of the first 26 bytes of
the stream: any two openable files agreeing on bytes 0 through 25 classify
identically, so bytes at offset 26 and beyond never influence the result. -/
theorem parse_one_first_26_bytes (s t : List Nat) (h : s.take 26 = t.take 26) :
    parse_one (some s) = parse_one (some t) := by
  have hm : min 26 s.length = min 26 t.length := by
    rw [← List.length_take, h, List.length_take]
  have h8 : s.take 8 = t.take 8 := by
    simpa [List.take_take] using congrArg (List.take 8) h
  have htag : (s.drop 12).take 4 = (t.drop 12).take 4 := by
    simpa [List.drop_take, List.take_take] using
      congrArg (fun l => (l.drop 12).take 4) h
  have hbyte : (s.drop 25).headD 0 = (t.drop 25).headD 0 := by
    have h25 : s[25]? = t[25]? := by
      have := congrArg (fun l => l[25]?) h
      dsimp only at this
      rwa [List.getElem?_take_of_lt (show 25 < 26 by omega),
        List.getElem?_take_of_lt (show 25 < 26 by omega)] at this
    simp [h25]
  have hl8 : (s.length < 8) ↔ (t.length < 8) := by omega
  have hl16 : (s.length < 16) ↔ (t.length < 16) := by omega
  have hl26 : (s.length < 26) ↔ (t.length < 26) := by omega
  rw [parse_one_some_eq, parse_one_some_eq, h8, htag, hbyte]
  simp only [hl8, hl16, hl26]

/-- Witness for C5: appending a byte after offset 25 does not change the
classification of a complete indexed-color header. -/
theorem parse_one_first_26_bytes_witness :
    parse_one (some (EXPECTED_PNG_HEADER ++ [0, 0, 0, 13] ++ IHDR_EXPECTED ++
        [0, 0, 0, 1] ++ [0, 0, 0, 1] ++ [8, 3] ++ [99, 99])) =
      parse_one (some (EXPECTED_PNG_HEADER ++ [0, 0, 0, 13] ++ IHDR_EXPECTED ++
        [0, 0, 0, 1] ++ [0, 0, 0, 1] ++ [8, 3])) :=
  parse_one_first_26_bytes _ _ (by decide)

/-- Claim C10: an error item from the `walkdir` traversal makes
`entry.expect("File I/O Error?")` panic, aborting the whole run at that
point: the remaining items are never examined and no summary is printed. -/
theorem runWalk_err_panics (rest : List WalkItem) (n : Nat) (out : List OutLine) :
    runWalk (WalkItem.err :: rest) n out =
      RunResult.aborted (ProcExit.panic ("File I/O Error?")) n out := rfl

/-- Claim C6: a file classified `Valid` with any pixel format other than
`IndexedColor` is silently skipped: `handle_one_file` returns `false` with
no output, for every repair environment — so `fix_image` is never invoked
and the fixed-count is unchanged. -/
theorem handle_one_file_skips_non_indexed (file : Option (List Nat)) (env : FixEnv)
    (rel : String) (pf : PixelFormat) (hpf : pf ≠ PixelFormat.IndexedColor)
    (hp : parse_one file = ParseResult.Valid pf) :
    handle_one_file file env rel = StepResult.done false [] := by
  unfold handle_one_file
  rw [hp]
  rcases pf <;> first | rfl | exact absurd rfl hpf

/-- Witness for C6: a concrete greyscale header is skipped with no output. -/
theorem handle_one_file_skips_non_indexed_witness :
    handle_one_file
      (some ([137, 80, 78, 71, 13, 10, 26, 10] ++ [0, 0, 0, 13] ++ [73, 72, 68, 82] ++
        [0, 0, 0, 1] ++ [0, 0, 0, 1] ++ [8, 0]))
      ⟨none, none, none, none, none, none⟩ "grey.png" = StepResult.done false [] :=
  handle_one_file_skips_non_indexed _ _ _ PixelFormat.Greyscale (by decide) (by decide)

/-- Claim C7: the dispatcher classifies an entry exactly when it is a
regular file whose extension is exactly "png" (case-sensitive `OsStr`
equality); every other entry is skipped without classification, and a
skipped entry contributes no output and no count change to the walk. -/
theorem entryStep_png_filter (ent : DirEntry) :
    (ent.isFile = true ∧ ent.extension = some ("png") →
      entryStep ent = some (handle_one_file ent.file ent.fixEnv ent.relPath)) ∧
    (¬ (ent.isFile = true ∧ ent.extension = some ("png")) → entryStep ent = none) ∧
    (∀ (rest : List WalkItem) (n : Nat) (out : List OutLine), entryStep ent = none →
      runWalk (WalkItem.ok ent :: rest) n out = runWalk rest n out) := by
  refine ⟨?_, ?_, ?_⟩
  · rintro ⟨h1, h2⟩
    unfold entryStep
    rw [h1, h2]
    simp
  · intro hn
    unfold entryStep
    rcases hb : ent.isFile with _ | _
    · simp
    · rcases hx : ent.extension with _ | ext
      · simp
      · have hne : ext ≠ "png" := fun he => hn ⟨hb, hx.trans (by rw [he])⟩
        simp [hne]
  · intro rest n out hnone
    rw [runWalk, hnone]

/-- Witness for C7: a `.jpg` entry is skipped without classification. -/
theorem entryStep_png_filter_witness :
    entryStep ⟨true, some ("jpg"), "photo.jpg", some [],
      ⟨none, none, none, none, none, none⟩⟩ = none :=
  (entryStep_png_filter _).2.1 (by simp)

/-- Claim C8: every classification failure outcome makes the dispatcher
print exactly one diagnostic line carrying the outcome and the relative
path, return `false` (not counted), and the walk then continues with the
remaining entries, the fixed-count unchanged. -/
theorem handle_one_file_reports_failures (file : Option (List Nat)) (env : FixEnv)
    (rel : String) (hfail : ∀ pf, parse_one file ≠ ParseResult.Valid pf) :
    handle_one_file file env rel =
      StepResult.done false [OutLine.errorLine (parse_one file) rel] ∧
    (∀ (ent : DirEntry) (rest : List WalkItem) (n : Nat) (out : List OutLine),
      entryStep ent = some (handle_one_file file env rel) →
      runWalk (WalkItem.ok ent :: rest) n out =
        runWalk rest n (out ++ [OutLine.errorLine (parse_one file) rel])) := by
  have h1 : handle_one_file file env rel =
      StepResult.done false [OutLine.errorLine (parse_one file) rel] := by
    unfold handle_one_file
    rcases hp : parse_one file with _ | _ | _ | _ | _ | pf
    · rfl
    · rfl
    · rfl
    · rfl
    · rfl
    · exact absurd hp (hfail pf)
  refine ⟨h1, ?_⟩
  intro ent rest n out h
  rw [h1] at h
  rw [runWalk, h]
  rfl

/-- Witness for C8: the empty file reads as `ReadFail` and is reported. -/
theorem handle_one_file_reports_failures_witness :
    handle_one_file (some []) ⟨none, none, none, none, none, none⟩ "broken.png" =
      StepResult.done false [OutLine.errorLine (parse_one (some [])) "broken.png"] :=
  (handle_one_file_reports_failures (some []) ⟨none, none, none, none, none, none⟩
    "broken.png"
    (by
      intro pf hcontra
      have hr : parse_one (some []) = ParseResult.ReadFail := rfl
      rw [hr] at hcontra
      exact ParseResult.noConfusion hcontra)).1

/-- Claim C9: a failure of any external collaborator step of the repair —
decode (`image::open`), re-encode (`save`), optimizer (`oxipng::optimize`)
or the verification re-decode — makes `fix_image` terminate the whole
process via an `.expect` panic (non-zero exit status, diagnostic message);
an indexed file repaired under such an environment aborts the dispatcher,
and an aborted step ends the walk at once, so no further entry is
processed and nothing is retried. -/
theorem fix_image_collaborator_failure_fatal (env : FixEnv)
    (h : env.decode = none ∨ env.save = none ∨ env.optimize = none ∨
      env.redecode = none) :
    (∃ msg out, fix_image env = FixResult.fatal (ProcExit.panic msg) out ∧
      (ProcExit.panic msg).isNonZero = true) ∧
    (∀ (file : Option (List Nat)) (rel : String),
      parse_one file = ParseResult.Valid PixelFormat.IndexedColor →
      ∃ msg fout, handle_one_file file env rel =
        StepResult.aborted (ProcExit.panic msg) (OutLine.isIndexed rel :: fout)) ∧
    (∀ (ent : DirEntry) (rest : List WalkItem) (n : Nat) (out : List OutLine)
        (e : ProcExit) (o : List OutLine),
      entryStep ent = some (StepResult.aborted e o) →
      runWalk (WalkItem.ok ent :: rest) n out = RunResult.aborted e n (out ++ o)) := by
  have hfatal : ∃ msg out, fix_image env = FixResult.fatal (ProcExit.panic msg) out := by
    rcases env with ⟨sb, d, sv, op, rd, sa⟩
    rcases sb with _ | sb
    · exact ⟨_, _, rfl⟩
    rcases d with _ | d
    · exact ⟨_, _, rfl⟩
    rcases sv with _ | sv
    · exact ⟨_, _, rfl⟩
    rcases op with _ | op
    · exact ⟨_, _, rfl⟩
    rcases rd with _ | rd
    · exact ⟨_, _, rfl⟩
    · exfalso
      simp at h
  refine ⟨?_, ?_, ?_⟩
  · obtain ⟨msg, out, hm⟩ := hfatal
    exact ⟨msg, out, hm, rfl⟩
  · intro file rel hp
    obtain ⟨msg, fout, hm⟩ := hfatal
    refine ⟨msg, fout, ?_⟩
    unfold handle_one_file
    rw [hp, hm]
  · intro ent rest n out e o h'
    rw [runWalk, h']

/-- Witness for C9: a decode failure aborts with a panic. -/
theorem fix_image_collaborator_failure_fatal_witness :
    ∃ msg out, fix_image ⟨some 7, none, none, none, none, none⟩ =
      FixResult.fatal (ProcExit.panic msg) out ∧
      (ProcExit.panic msg).isNonZero = true :=
  (fix_image_collaborator_failure_fatal ⟨some 7, none, none, none, none, none⟩
    (Or.inl rfl)).1

/-- Claim C1: the repair only returns success when the re-decoded buffer is
byte-for-byte identical to the buffer decoded before the rewrite; a
mismatch makes `fix_image` terminate with `exit(-1)` (non-zero) printing
only the error banner; a counted repair means `fix_image` returned
normally; and an aborted run never adds the final summary line to the
output. -/
theorem fix_image_lossless_verification :
    (∀ (env : FixEnv) (out : List OutLine), fix_image env = FixResult.ok out →
      ∃ buf, env.decode = some buf ∧ env.redecode = some buf) ∧
    (∀ (sb : Nat) (sa : Option Nat) (before after : List Nat), before ≠ after →
      fix_image ⟨some sb, some before, some (), some (), some after, sa⟩ =
        FixResult.fatal (ProcExit.exitCode (-1))
          [OutLine.converting, OutLine.optimizing, OutLine.optimized,
            OutLine.mismatchBanner] ∧
      (ProcExit.exitCode (-1)).isNonZero = true) ∧
    (∀ (file : Option (List Nat)) (env : FixEnv) (rel : String) (o : List OutLine),
      handle_one_file file env rel = StepResult.done true o →
      ∃ fout, fix_image env = FixResult.ok fout) ∧
    (∀ (items : List WalkItem) (n : Nat) (out : List OutLine) (e : ProcExit)
        (m : Nat) (o : List OutLine),
      runWalk items n out = RunResult.aborted e m o →
      ∀ k, OutLine.fixedSummary k ∈ o → OutLine.fixedSummary k ∈ out) := by
  refine ⟨?_, ?_, ?_, ?_⟩
  · intro env out hok
    rcases env with ⟨sb, d, sv, op, rd, sa⟩
    rcases sb with _ | sb
    · simp [fix_image] at hok
    rcases d with _ | d
    · simp [fix_image] at hok
    rcases sv with _ | sv
    · simp [fix_image] at hok
    rcases op with _ | op
    · simp [fix_image] at hok
    rcases rd with _ | rd
    · simp [fix_image] at hok
    by_cases hd : d = rd
    · exact ⟨d, rfl, by rw [hd]⟩
    · simp only [fix_image] at hok
      rw [if_pos hd] at hok
      cases hok
  · intro sb sa before after hne
    constructor
    · simp only [fix_image]
      rw [if_pos hne]
    · rfl
  · intro file env rel o hdone
    unfold handle_one_file at hdone
    rcases hp : parse_one file with _ | _ | _ | _ | _ | pf <;> rw [hp] at hdone
    · simp at hdone
    · simp at hdone
    · simp at hdone
    · simp at hdone
    · simp at hdone
    · rcases pf
      case IndexedColor =>
        rcases hf : fix_image env with ⟨e, fout⟩ | fout <;> rw [hf] at hdone
        · simp at hdone
        · exact ⟨fout, rfl⟩
      all_goals simp at hdone
  · exact runWalk_aborted_out

/-- Witness for C1: a concrete one-byte pixel mismatch takes the fatal
`exit(-1)` path with no summary line in the output. -/
theorem fix_image_lossless_verification_witness :
    fix_image ⟨some 0, some [0], some (), some (), some [1], none⟩ =
      FixResult.fatal (ProcExit.exitCode (-1))
        [OutLine.converting, OutLine.optimizing, OutLine.optimized,
          OutLine.mismatchBanner] :=
  (fix_image_lossless_verification.2.1 0 none [0] [1] (by decide)).1
